import Mathlib

/-!
Shallow embedding of the bananaGen vocational editor's asynchronous
generation-task tracking subsystem.

Sources embedded here:
- the zustand slot-status store (`useVocationalStore`): its state record and
  the operations `setPracticeRatio`, `setImageTaskId`, `updateImageProgress`,
  `updateSlotStatus`;
- the push-channel hook (`useImageGenerationWS`): the per-event handlers
  `handleSlotStarted`, `handleSlotCompleted`, `handleSlotFailed`,
  `handleTaskCompleted`, `handleTaskFailed`, and the reconnect bookkeeping
  performed by the `connect` / `connect_error` socket callbacks;
- the editor page (`VocationalEditor`): the step-derivation effect that infers
  completed workflow steps from the persisted project pages and auto-advances
  the current step, and the `pollImageStatus` polling loop's scheduling
  decision.

TypeScript values are modelled as follows: strings as `String`, optional
fields as `Option`, JS numbers that hold counters as `Int`, the practice
ratio as `ℚ`, arrays as `List`.
-/

/-- Scene union type from the store (`VocationalScene`). -/
inductive VocationalScene
  | theory
  | practice
  | review
  | mixed
  deriving DecidableEq

/-- Status union type of one image slot (`ImageSlotStatus`). -/
inductive ImageSlotStatus
  | pending
  | generating
  | completed
  | failed
  | uploaded
  deriving DecidableEq

/-- Image layout union type of a page (`'none' | 'right' | 'background'`). -/
inductive ImageLayout
  | none
  | right
  | background
  deriving DecidableEq

/-- One outline page held by the store (`VocationalPage`). -/
structure VocationalPage where
  id : String
  title : String
  bullets : List String
  imageLayout : ImageLayout
  pageType : Option String
  part : Option String
  deriving DecidableEq

/-- One image to be produced for one page (`ImageSlot`). -/
structure ImageSlot where
  slot_id : String
  page_index : Nat
  description : String
  status : ImageSlotStatus
  image_path : Option String
  prompt : Option String
  deriving DecidableEq

/-- Aggregate progress counters for one batch job (the store's
`imageProgress` record and the `progress` payload of status events). -/
structure ImageProgress where
  total : Int
  completed : Int
  failed : Int
  deriving DecidableEq

/-- The data fields of the zustand store's state (`VocationalState`),
without the operation closures. -/
structure VocationalState where
  scene : VocationalScene
  selectedPedagogy : String
  selectedTemplate : String
  practiceRatio : ℚ
  previewHtml : Option String
  previewUrl : Option String
  imageSlots : List ImageSlot
  layoutsUsed : List (String × Int)
  pages : List VocationalPage
  editingPageIndex : Option Nat
  unsavedChanges : Bool
  imageTaskId : Option String
  imageProgress : ImageProgress
  wsConnected : Bool
  deriving DecidableEq

/-- The store's `initialState` object. -/
def initialState : VocationalState :=
  { scene := .theory
    selectedPedagogy := ""
    selectedTemplate := ""
    practiceRatio := 20
    previewHtml := .none
    previewUrl := .none
    imageSlots := []
    layoutsUsed := []
    pages := []
    editingPageIndex := .none
    unsavedChanges := false
    imageTaskId := .none
    imageProgress := { total := 0, completed := 0, failed := 0 }
    wsConnected := false }

/-- Store operation `setPracticeRatio`: stores
`Math.max(0, Math.min(100, ratio))` and flags unsaved changes. -/
def setPracticeRatio (st : VocationalState) (ratio : ℚ) : VocationalState :=
  { st with practiceRatio := max 0 (min 100 ratio), unsavedChanges := true }

/-- Store operation `setImageTaskId`: records or clears the tracked job id. -/
def setImageTaskId (st : VocationalState) (taskId : Option String) : VocationalState :=
  { st with imageTaskId := taskId }

/-- Store operation `updateImageProgress`: replaces the aggregate counters
wholesale with the supplied snapshot. -/
def updateImageProgress (st : VocationalState) (progress : ImageProgress) : VocationalState :=
  { st with imageProgress := progress }

/-- The `imagePath ?? slot.image_path` merge used by `updateSlotStatus`:
a supplied path overwrites, an omitted (undefined) path keeps the old one. -/
def applySlotPath (imagePath old : Option String) : Option String :=
  match imagePath with
  | some p => some p
  | .none => old

/-- Store operation `updateSlotStatus`: maps over `imageSlots`, and on the
slot whose `slot_id` matches replaces `status` and merges `image_path` via
`imagePath ?? slot.image_path`; every other slot is returned unchanged. -/
def updateSlotStatus (st : VocationalState) (slotId : String)
    (status : ImageSlotStatus) (imagePath : Option String) : VocationalState :=
  { st with imageSlots := st.imageSlots.map (fun slot =>
      if slot.slot_id == slotId then
        { slot with status := status, image_path := applySlotPath imagePath slot.image_path }
      else slot) }

/-- Payload of one inbound push-channel message (`WSMessage`); every field is
optional on the wire. -/
structure WSMessage where
  task_id : Option String
  slot_id : Option String
  image_path : Option String
  error : Option String
  progress : Option ImageProgress
  deriving DecidableEq

/-- Push handler for `slot_started`: if a `slot_id` is present, apply
`updateSlotStatus(slot_id, 'generating')` (no image path argument). -/
def handleSlotStarted (data : WSMessage) (st : VocationalState) : VocationalState :=
  match data.slot_id with
  | some sid => updateSlotStatus st sid .generating .none
  | .none => st

/-- Push handler for `slot_completed`: if a `slot_id` is present, apply
`updateSlotStatus(slot_id, 'completed', image_path)`; if a progress snapshot
is present, apply `updateImageProgress`. -/
def handleSlotCompleted (data : WSMessage) (st : VocationalState) : VocationalState :=
  let st1 := match data.slot_id with
    | some sid => updateSlotStatus st sid .completed data.image_path
    | .none => st
  match data.progress with
  | some p => updateImageProgress st1 p
  | .none => st1

/-- Push handler for `slot_failed`: if a `slot_id` is present, apply
`updateSlotStatus(slot_id, 'failed')`; if a progress snapshot is present,
apply `updateImageProgress`. -/
def handleSlotFailed (data : WSMessage) (st : VocationalState) : VocationalState :=
  let st1 := match data.slot_id with
    | some sid => updateSlotStatus st sid .failed .none
    | .none => st
  match data.progress with
  | some p => updateImageProgress st1 p
  | .none => st1

/-- Push handler for `task_completed`: clears the tracked job id and, if a
progress snapshot is present, applies `updateImageProgress`. -/
def handleTaskCompleted (data : WSMessage) (st : VocationalState) : VocationalState :=
  let st1 := setImageTaskId st .none
  match data.progress with
  | some p => updateImageProgress st1 p
  | .none => st1

/-- Push handler for `task_failed`: clears the tracked job id via
`setImageTaskId(null)`; the error is surfaced to the user through the
`onError` callback, which does not touch the store. -/
def handleTaskFailed (_data : WSMessage) (st : VocationalState) : VocationalState :=
  setImageTaskId st .none

/-- Reconnect configuration constant `INITIAL_RECONNECT_DELAY` (ms). -/
def INITIAL_RECONNECT_DELAY : Nat := 1000

/-- Reconnect configuration constant `MAX_RECONNECT_DELAY` (ms). -/
def MAX_RECONNECT_DELAY : Nat := 30000

/-- Reconnect configuration constant `MAX_RECONNECT_ATTEMPTS`. -/
def MAX_RECONNECT_ATTEMPTS : Nat := 10

/-- The user-visible message set once the reconnect-attempt cap is reached. -/
def failMsg : String := "WebSocket 连接失败，请刷新页面重试"

/-- Connection-related local state of the push-channel hook:
`reconnectAttempts` ref, `isConnected` and `connectionError` state. -/
structure WSConnState where
  reconnectAttempts : Nat
  isConnected : Bool
  connectionError : Option String
  deriving DecidableEq

/-- Effect of the `connect` socket callback on the hook state: marks the
channel connected, clears the error, resets the attempt counter to zero. -/
def onConnect (s : WSConnState) : WSConnState :=
  { s with isConnected := true, connectionError := .none, reconnectAttempts := 0 }

/-- Effect of the `connect_error` socket callback: sets the transient error
message, increments the attempt counter, and once the counter has reached
`MAX_RECONNECT_ATTEMPTS` replaces the message with the final failure notice. -/
def onConnectError (s : WSConnState) : WSConnState :=
  let s2 : WSConnState :=
    { s with connectionError := some "连接错误",
             reconnectAttempts := s.reconnectAttempts + 1 }
  if s2.reconnectAttempts ≥ MAX_RECONNECT_ATTEMPTS then
    { s2 with connectionError := some failMsg }
  else s2

/-- Connection-level events delivered by the socket client. -/
inductive ConnEvent
  | connected
  | connectError
  | disconnected
  deriving DecidableEq

/-- Dispatch of one connection-level event to its hook callback. -/
def connStep (s : WSConnState) (e : ConnEvent) : WSConnState :=
  match e with
  | .connected => onConnect s
  | .connectError => onConnectError s
  | .disconnected => { s with isConnected := false }

/-- Modelled from the spec: the automatic reconnection scheduler lives in the
socket client library, not in this repository's source; the hook configures
it with `reconnectionAttempts = MAX_RECONNECT_ATTEMPTS`. Per the spec's
reconnection policy, a further automatic attempt is scheduled after a failed
attempt iff the attempt counter has not yet reached the configured maximum. -/
def willAutoRetry (s : WSConnState) : Bool :=
  s.reconnectAttempts < MAX_RECONNECT_ATTEMPTS

/-- Workflow step union type (`WorkflowStep`); the PPTX-export stage is named
`exportStep` here because `export` is reserved in Lean. -/
inductive WorkflowStep
  | outline
  | descriptions
  | images
  | exportStep
  deriving DecidableEq

/-- The canonical order `stepOrder` used by the auto-advance logic. -/
def stepOrder : List WorkflowStep :=
  [.outline, .descriptions, .images, .exportStep]

/-- The `getStepIndex` helper: position of a step in `stepOrder`. -/
def getStepIndex (step : WorkflowStep) : Nat :=
  stepOrder.indexOf step

/-- The `outline_content` object of a persisted page. -/
structure OutlineContent where
  title : Option String
  points : Option (List String)
  deriving DecidableEq

/-- One page of the persisted project document, with the fields the step
derivation reads (`id`/`page_id`, `outline_content`, `part`,
`description_content`, `generated_image_url`, `generated_image_path`). -/
structure ProjectPage where
  id : Option String
  page_id : Option String
  outline_content : Option OutlineContent
  part : Option String
  description_content : Option String
  generated_image_url : Option String
  generated_image_path : Option String
  deriving DecidableEq

/-- JS truthiness of an optional string field: present and non-empty. -/
def jsTruthyStr (s : Option String) : Bool :=
  match s with
  | some v => v != ""
  | .none => false

/-- The mapped page title `page.outline_content?.title || ''`. -/
def titleOf (p : ProjectPage) : String :=
  match p.outline_content with
  | some oc => oc.title.getD ""
  | .none => ""

/-- `hasOutline`: at least one page and some page with a truthy title. -/
def hasOutline (pages : List ProjectPage) : Bool :=
  decide (pages.length > 0) && pages.any (fun p => titleOf p != "")

/-- `hasDescriptions`: some page with truthy `description_content`. -/
def hasDescriptions (pages : List ProjectPage) : Bool :=
  pages.any (fun p => jsTruthyStr p.description_content)

/-- `hasImages`: some page with a truthy generated-image url or path. -/
def hasImages (pages : List ProjectPage) : Bool :=
  pages.any (fun p =>
    jsTruthyStr p.generated_image_url || jsTruthyStr p.generated_image_path)

/-- The `newCompleted` set built by the step-detection effect, as a list in
insertion order: `outline`, then `descriptions`, then `images`, each added
iff its content test holds. -/
def deriveCompleted (pages : List ProjectPage) : List WorkflowStep :=
  (if hasOutline pages then [WorkflowStep.outline] else []) ++
    (if hasDescriptions pages then [WorkflowStep.descriptions] else []) ++
      (if hasImages pages then [WorkflowStep.images] else [])

/-- The `autoStep` chain of the step-detection effect: first content-wise
incomplete stage in canonical order, `exportStep` when all are complete. -/
def deriveAutoStep (pages : List ProjectPage) : WorkflowStep :=
  if !hasOutline pages then .outline
  else if !hasDescriptions pages then .descriptions
  else if !hasImages pages then .images
  else .exportStep

/-- The auto-advance decision: `setCurrentStep(autoStep)` is called only when
`getStepIndex(autoStep) > getStepIndex(currentStep)`; otherwise the current
step is left as it is. -/
def nextCurrentStep (current auto : WorkflowStep) : WorkflowStep :=
  if getStepIndex auto > getStepIndex current then auto else current

/-- Outcome of one invocation of `pollImageStatus`: either a response from
the status endpoint with its optional `status`, `progress` and `error`
fields, or a failed request (the `catch` branch). -/
inductive PollOutcome
  | response (status : Option String) (progress : Option ImageProgress) (error : Option String)
  | requestFailure
  deriving DecidableEq

/-- The terminal job statuses of the polling contract. -/
def isTerminalStatus (st : Option String) : Bool :=
  st == some "COMPLETED" || st == some "PARTIAL" || st == some "FAILED"

/-- Scheduling decision of one `pollImageStatus` invocation: `none` when the
loop stops (terminal status), `some d` when the next poll is scheduled after
`d` milliseconds (3000 on a non-terminal response, 5000 in the `catch`
branch of a failed request). -/
def pollStep (o : PollOutcome) : Option Nat :=
  match o with
  | .response st _ _ =>
      if st == some "COMPLETED" || st == some "PARTIAL" then .none
      else if st == some "FAILED" then .none
      else some 3000
  | .requestFailure => some 5000

/-- Well-formedness of a progress snapshot: non-negative counters with
`completed + failed ≤ total`. -/
def progressWF (p : ImageProgress) : Prop :=
  0 ≤ p.total ∧ 0 ≤ p.completed ∧ 0 ≤ p.failed ∧ p.completed + p.failed ≤ p.total

instance (p : ImageProgress) : Decidable (progressWF p) := by
  unfold progressWF
  infer_instance

/-- A concrete pending slot used in counterexamples and witnesses. -/
def slotX : ImageSlot :=
  { slot_id := "X", page_index := 0, description := "d",
    status := .pending, image_path := .none, prompt := .none }

/-- A concrete store holding exactly the slot `slotX`. -/
def storeX : VocationalState :=
  { initialState with imageSlots := [slotX] }

/-- A `slot_started` message for a given slot id. -/
def mkStartedMsg (sid : String) : WSMessage :=
  { task_id := .none, slot_id := some sid, image_path := .none,
    error := .none, progress := .none }

/-- A `slot_completed` message for a given slot id and image path, with no
progress payload. -/
def mkCompletedMsg (sid path : String) : WSMessage :=
  { task_id := .none, slot_id := some sid, image_path := some path,
    error := .none, progress := .none }

/-- An ill-formed progress snapshot used as the C6 counterexample input. -/
def badProgress : ImageProgress :=
  { total := 0, completed := 1, failed := 0 }

/-- A well-formed progress snapshot used in the C6 witness. -/
def okProgress : ImageProgress :=
  { total := 5, completed := 3, failed := 1 }

/-- A persisted page with only an outline title, used in the C4 witness. -/
def titledPage (t : String) : ProjectPage :=
  { id := .none, page_id := .none,
    outline_content := some { title := some t, points := .none },
    part := .none, description_content := .none,
    generated_image_url := .none, generated_image_path := .none }

/-- The hook state before any connection attempt. -/
def connState0 : WSConnState :=
  { reconnectAttempts := 0, isConnected := false, connectionError := .none }

/-- C2: applying `updateSlotStatus` twice with the same arguments yields the
same store state as applying it once. -/
theorem updateSlotStatus_idempotent (st : VocationalState) (sid : String)
    (status : ImageSlotStatus) (imagePath : Option String) :
    updateSlotStatus (updateSlotStatus st sid status imagePath) sid status imagePath =
      updateSlotStatus st sid status imagePath := by
  simp only [updateSlotStatus, List.map_map]
  congr 1
  apply List.map_congr_left
  intro slot _
  simp only [Function.comp_apply]
  cases h : slot.slot_id == sid with
  | false => simp [h]
  | true =>
      simp only [h, if_true]
      cases imagePath <;> simp [applySlotPath]

/-- C3: a supplied `imagePath` overwrites the matching slot's stored
`image_path`; an omitted one leaves the matching slot's `image_path`
unchanged (the second map below keeps `image_path` at its old value); slots
with a different `slot_id` are untouched in both cases. -/
theorem updateSlotStatus_imagePath_merge (st : VocationalState) (sid : String)
    (status : ImageSlotStatus) (p : String) :
    (updateSlotStatus st sid status (some p)).imageSlots =
      st.imageSlots.map (fun slot =>
        if slot.slot_id == sid then
          { slot with status := status, image_path := some p }
        else slot) ∧
    (updateSlotStatus st sid status .none).imageSlots =
      st.imageSlots.map (fun slot =>
        if slot.slot_id == sid then { slot with status := status }
        else slot) := by
  constructor <;>
    · simp only [updateSlotStatus]
      apply List.map_congr_left
      intro slot _
      cases h : slot.slot_id == sid <;> simp [h, applySlotPath]

/-- C1 counterexample: on a store holding the pending slot `"X"`, applying
`slot_completed("X", "img.png")` first and `slot_started("X")` second leaves
the slot with status `generating`, not the claimed `completed`. -/
theorem slot_events_reversed_not_completed :
    (handleSlotStarted (mkStartedMsg "X")
        (handleSlotCompleted (mkCompletedMsg "X" "img.png") storeX)).imageSlots.map
        ImageSlot.status = [ImageSlotStatus.generating] ∧
    ImageSlotStatus.generating ≠ ImageSlotStatus.completed := by
  constructor
  · rfl
  · decide

/-- C1 amended: for any store, applying `slot_started(X)` then
`slot_completed(X, path)` ends the matching slot at
`{status := completed, image_path := path}`, while the reverse order ends it
at `{status := generating, image_path := path}`: the delivered `imagePath`
is order-independent, but the final status is that of the last event
applied. -/
theorem slot_started_completed_order (st : VocationalState) (sid path : String) :
    (handleSlotCompleted (mkCompletedMsg sid path)
        (handleSlotStarted (mkStartedMsg sid) st)).imageSlots =
      st.imageSlots.map (fun slot =>
        if slot.slot_id == sid then
          { slot with status := .completed, image_path := some path }
        else slot) ∧
    (handleSlotStarted (mkStartedMsg sid)
        (handleSlotCompleted (mkCompletedMsg sid path) st)).imageSlots =
      st.imageSlots.map (fun slot =>
        if slot.slot_id == sid then
          { slot with status := .generating, image_path := some path }
        else slot) := by
  constructor <;>
    · simp only [handleSlotStarted, handleSlotCompleted, mkStartedMsg, mkCompletedMsg,
        updateSlotStatus, List.map_map]
      apply List.map_congr_left
      intro slot _
      simp only [Function.comp_apply]
      cases h : slot.slot_id == sid <;> simp [h, applySlotPath]

/-- C7: handling `task_failed` clears the active job identifier and leaves
every per-slot status (the whole `imageSlots` array) and the progress
counters exactly as they were. -/
theorem handleTaskFailed_clears_job_keeps_slots (data : WSMessage) (st : VocationalState) :
    (handleTaskFailed data st).imageTaskId = Option.none ∧
    (handleTaskFailed data st).imageSlots = st.imageSlots ∧
    (handleTaskFailed data st).imageProgress = st.imageProgress :=
  ⟨rfl, rfl, rfl⟩

/-- C10: for every input ratio, `setPracticeRatio` stores a practice ratio
inside the closed interval from 0 to 100. -/
theorem setPracticeRatio_clamps (st : VocationalState) (ratio : ℚ) :
    0 ≤ (setPracticeRatio st ratio).practiceRatio ∧
    (setPracticeRatio st ratio).practiceRatio ≤ 100 := by
  refine ⟨?_, ?_⟩
  · show (0 : ℚ) ≤ max 0 (min 100 ratio)
    exact le_max_left _ _
  · show max (0 : ℚ) (min 100 ratio) ≤ 100
    exact max_le (by norm_num) (min_le_left _ _)

/-- C4: a persisted document of three pages, all with non-empty titles and
with no description content and no generated-image reference, derives the
completed-step set exactly as the outline step and the default step as
`descriptions`. -/
theorem deriveSteps_three_titled_pages (pages : List ProjectPage)
    (hlen : pages.length = 3)
    (h : ∀ p ∈ pages, titleOf p ≠ "" ∧ p.description_content = Option.none ∧
      p.generated_image_url = Option.none ∧ p.generated_image_path = Option.none) :
    deriveCompleted pages = [WorkflowStep.outline] ∧
    deriveAutoStep pages = WorkflowStep.descriptions := by
  obtain ⟨a, b, c, rfl⟩ := List.length_eq_three.mp hlen
  obtain ⟨ha1, ha2, ha3, ha4⟩ := h a (by simp)
  obtain ⟨hb1, hb2, hb3, hb4⟩ := h b (by simp)
  obtain ⟨hc1, hc2, hc3, hc4⟩ := h c (by simp)
  have hOut : hasOutline [a, b, c] = true := by
    simp [hasOutline, bne_iff_ne, ha1]
  have hDesc : hasDescriptions [a, b, c] = false := by
    simp [hasDescriptions, jsTruthyStr, ha2, hb2, hc2]
  have hImg : hasImages [a, b, c] = false := by
    simp [hasImages, jsTruthyStr, ha3, ha4, hb3, hb4, hc3, hc4]
  constructor
  · simp [deriveCompleted, hOut, hDesc, hImg]
  · simp [deriveAutoStep, hOut, hDesc, hImg]

/-- C4 witness: the derivation evaluated on a concrete three-page document
with titles only. -/
theorem deriveSteps_three_titled_pages_witness :
    ([titledPage "a", titledPage "b", titledPage "c"] : List ProjectPage).length = 3 ∧
    (deriveCompleted [titledPage "a", titledPage "b", titledPage "c"] = [WorkflowStep.outline] ∧
      deriveAutoStep [titledPage "a", titledPage "b", titledPage "c"] = WorkflowStep.descriptions) :=
  ⟨rfl, deriveSteps_three_titled_pages _ rfl (by decide)⟩

/-- C5: the auto-advance decision never moves the current step backward, and
whenever the computed default is not strictly later in the canonical order
the current step is kept unchanged. -/
theorem autoAdvance_forward_only (current auto : WorkflowStep) :
    getStepIndex current ≤ getStepIndex (nextCurrentStep current auto) ∧
    (getStepIndex auto ≤ getStepIndex current → nextCurrentStep current auto = current) := by
  unfold nextCurrentStep
  by_cases h : getStepIndex auto > getStepIndex current
  · rw [if_pos h]
    exact ⟨Nat.le_of_lt h, fun h2 => absurd h (Nat.not_lt.mpr h2)⟩
  · rw [if_neg h]
    exact ⟨Nat.le_refl _, fun _ => rfl⟩

/-- C5 witness: a user on the export step with computed default `images`
stays on the export step. -/
theorem autoAdvance_forward_only_witness :
    getStepIndex WorkflowStep.images ≤ getStepIndex WorkflowStep.exportStep ∧
    nextCurrentStep WorkflowStep.exportStep WorkflowStep.images = WorkflowStep.exportStep :=
  ⟨by decide, (autoAdvance_forward_only WorkflowStep.exportStep WorkflowStep.images).2 (by decide)⟩

/-- C6 counterexample: `updateImageProgress` stores its snapshot without any
validation, so applying the ill-formed snapshot `{total := 0, completed := 1,
failed := 0}` leaves the store with `completed + failed > total`. -/
theorem progress_snapshot_unvalidated :
    ¬ progressWF (updateImageProgress initialState badProgress).imageProgress := by
  decide

/-- C6 amended: provided the current snapshot is well-formed and every
snapshot handed to `updateImageProgress` is well-formed (non-negative
counters with `completed + failed ≤ total`), the store's snapshot stays
well-formed after any sequence of `updateImageProgress` applications. -/
theorem progressWF_preserved : ∀ (ps : List ImageProgress) (st : VocationalState),
    progressWF st.imageProgress → (∀ p ∈ ps, progressWF p) →
    progressWF ((ps.foldl updateImageProgress st).imageProgress) := by
  intro ps
  induction ps with
  | nil => intro st h0 _; exact h0
  | cons q qs ih =>
      intro st h0 h
      rw [List.foldl_cons]
      refine ih (updateImageProgress st q) ?_ ?_
      · exact h q (by simp)
      · intro p hp
        exact h p (by simp [hp])

/-- C6 witness: the amended preservation applied to the initial store and
one well-formed snapshot. -/
theorem progressWF_preserved_witness :
    progressWF initialState.imageProgress ∧
    (∀ p ∈ [okProgress], progressWF p) ∧
    progressWF (([okProgress].foldl updateImageProgress initialState).imageProgress) :=
  ⟨by decide, by decide, progressWF_preserved [okProgress] initialState (by decide) (by decide)⟩

/-- One `connect_error` callback run increments the attempt counter by one. -/
theorem onConnectError_attempts (s : WSConnState) :
    (onConnectError s).reconnectAttempts = s.reconnectAttempts + 1 := by
  simp only [onConnectError]
  split <;> rfl

/-- Attempt counter after `n` consecutive `connect_error` events. -/
theorem foldl_connectError_attempts (n : Nat) :
    ∀ s : WSConnState,
      ((List.replicate n ConnEvent.connectError).foldl connStep s).reconnectAttempts =
        s.reconnectAttempts + n := by
  induction n with
  | zero => intro _; rfl
  | succ m ih =>
      intro s
      rw [List.replicate_succ, List.foldl_cons, ih]
      have hc : (connStep s ConnEvent.connectError).reconnectAttempts =
          s.reconnectAttempts + 1 := onConnectError_attempts s
      omega

/-- A `connect_error` whose increment reaches the cap sets the final failure
notice. -/
theorem onConnectError_hits_cap (s : WSConnState)
    (h : MAX_RECONNECT_ATTEMPTS ≤ s.reconnectAttempts + 1) :
    (onConnectError s).connectionError = some failMsg := by
  simp only [onConnectError]
  split
  · rfl
  · next hlt => exact absurd h (by simpa using hlt)

/-- C8: the attempt counter is incremented on every failed connection
attempt and reset to zero on every successful connect; starting from a fresh
counter, after `MAX_RECONNECT_ATTEMPTS` consecutive failed attempts the
connection error holds the user-visible failure notice and no further
automatic attempt is scheduled, while before the cap a retry is still
scheduled. -/
theorem reconnect_counter_and_cap (s : WSConnState) :
    (onConnectError s).reconnectAttempts = s.reconnectAttempts + 1 ∧
    (onConnect s).reconnectAttempts = 0 ∧
    (s.reconnectAttempts = 0 →
      ((List.replicate MAX_RECONNECT_ATTEMPTS ConnEvent.connectError).foldl connStep s).connectionError
          = some failMsg ∧
      willAutoRetry ((List.replicate MAX_RECONNECT_ATTEMPTS ConnEvent.connectError).foldl connStep s)
          = false ∧
      ∀ k, k < MAX_RECONNECT_ATTEMPTS →
        willAutoRetry ((List.replicate k ConnEvent.connectError).foldl connStep s) = true) := by
  refine ⟨onConnectError_attempts s, rfl, ?_⟩
  intro hs
  refine ⟨?_, ?_, ?_⟩
  · have h9 : ((List.replicate 9 ConnEvent.connectError).foldl connStep s).reconnectAttempts = 9 := by
      rw [foldl_connectError_attempts 9 s, hs]
    have hsplit : List.replicate MAX_RECONNECT_ATTEMPTS ConnEvent.connectError =
        List.replicate 9 ConnEvent.connectError ++ [ConnEvent.connectError] := by
      rw [show MAX_RECONNECT_ATTEMPTS = 9 + 1 from rfl, List.replicate_succ']
    rw [hsplit, List.foldl_append, List.foldl_cons, List.foldl_nil]
    exact onConnectError_hits_cap
      ((List.replicate 9 ConnEvent.connectError).foldl connStep s) (by rw [h9]; decide)
  · have h10 : ((List.replicate MAX_RECONNECT_ATTEMPTS ConnEvent.connectError).foldl
        connStep s).reconnectAttempts = 10 := by
      rw [foldl_connectError_attempts, hs]
      decide
    simp only [willAutoRetry]
    rw [h10]
    decide
  · intro k hk
    have hka : ((List.replicate k ConnEvent.connectError).foldl connStep s).reconnectAttempts = k := by
      rw [foldl_connectError_attempts, hs]
      omega
    simp only [willAutoRetry]
    rw [hka]
    simpa using hk

/-- C8 witness: ten consecutive failed attempts from the fresh hook state
surface the failure notice and stop automatic retries. -/
theorem reconnect_counter_and_cap_witness :
    connState0.reconnectAttempts = 0 ∧
    ((List.replicate MAX_RECONNECT_ATTEMPTS ConnEvent.connectError).foldl
        connStep connState0).connectionError = some failMsg ∧
    willAutoRetry ((List.replicate MAX_RECONNECT_ATTEMPTS ConnEvent.connectError).foldl
        connStep connState0) = false :=
  ⟨rfl, ((reconnect_counter_and_cap connState0).2.2 rfl).1,
    ((reconnect_counter_and_cap connState0).2.2 rfl).2.1⟩

/-- The scheduling decision for a poll response depends only on whether the
reported status is terminal. -/
theorem pollStep_response_eq (st : Option String) (p : Option ImageProgress)
    (e : Option String) :
    pollStep (PollOutcome.response st p e) =
      if isTerminalStatus st then Option.none else some 3000 := by
  cases ha : st == some "COMPLETED" <;> cases hb : st == some "PARTIAL" <;>
    cases hc : st == some "FAILED" <;>
      simp [pollStep, isTerminalStatus, ha, hb, hc]

/-- C9: the polling loop schedules no further poll exactly when the response
reports a terminal status (COMPLETED, PARTIAL or FAILED); a non-terminal
response reschedules after the fixed 3000 ms interval, and a failed request
does not stop the loop but reschedules after the longer 5000 ms interval. -/
theorem pollStep_stops_iff_terminal :
    (∀ o : PollOutcome, pollStep o = Option.none ↔
      ∃ st p e, o = PollOutcome.response st p e ∧ isTerminalStatus st = true) ∧
    (∀ st p e, isTerminalStatus st = false →
      pollStep (PollOutcome.response st p e) = some 3000) ∧
    pollStep PollOutcome.requestFailure = some 5000 ∧ 3000 < 5000 := by
  refine ⟨?_, ?_, rfl, by norm_num⟩
  · intro o
    cases o with
    | requestFailure => simp [pollStep]
    | response st p e =>
        rw [pollStep_response_eq]
        by_cases h : isTerminalStatus st = true
        · simp [h]
        · simp [h]
  · intro st p e h
    simp [pollStep_response_eq, h]

/-- C9 witness: a RUNNING response is non-terminal and reschedules at the
fixed 3000 ms interval. -/
theorem pollStep_stops_iff_terminal_witness :
    isTerminalStatus (some "RUNNING") = false ∧
    pollStep (PollOutcome.response (some "RUNNING") Option.none Option.none) = some 3000 :=
  ⟨by decide, pollStep_stops_iff_terminal.2.1 (some "RUNNING") Option.none Option.none (by decide)⟩
